import Mathlib

/-!
# Verification of the vgen-tools backend against its specification

Shallow embedding of the JavaScript backend (Express + Supabase + Gemini
wrapper).  Strings are modelled as `List Char` (Unicode code points); the
JavaScript string operations used by the code (`toLowerCase`, `split`,
`includes`, `.length`, regex tests) are embedded as executable Lean
functions, restricted to the exact regular expressions appearing in the
source.  JavaScript numbers appear here as `Nat` except where `NaN` can
arise, in which case `Option Nat` is used with `none` denoting `NaN`.
-/

namespace VGen

/-- Convert a Lean string literal to the character-list representation. -/
def str (s : String) : List Char := s.data

/-! ## JavaScript character classes and string primitives -/

/-- JS `\w` word character: `[A-Za-z0-9_]`. -/
def isWordChar (c : Char) : Bool :=
  ('a' ≤ c && c ≤ 'z') || ('A' ≤ c && c ≤ 'Z') || ('0' ≤ c && c ≤ '9') || c = '_'

/-- JS `\d` digit character. -/
def isDigitChar (c : Char) : Bool := '0' ≤ c && c ≤ '9'

/-- JS `\s` whitespace character (ASCII part plus the Unicode space set). -/
def isJsSpace (c : Char) : Bool :=
  c = ' ' || c = '\t' || c = '\n' || c = '\x0b' || c = '\x0c' || c = '\r' ||
  c.toNat = 0xa0 || c.toNat = 0x1680 ||
  (0x2000 ≤ c.toNat && c.toNat ≤ 0x200a) ||
  c.toNat = 0x2028 || c.toNat = 0x2029 || c.toNat = 0x202f ||
  c.toNat = 0x205f || c.toNat = 0x3000 || c.toNat = 0xfeff

/-- A character matched by JS `.` (any character except line terminators). -/
def isDotChar (c : Char) : Bool :=
  !(c = '\n' || c = '\r' || c.toNat = 0x2028 || c.toNat = 0x2029)

/-- JS `String.prototype.length` counts UTF-16 code units: code points above
`0xFFFF` count twice. -/
def jsLength (cs : List Char) : Nat :=
  cs.foldr (fun c n => n + (if 0x10000 ≤ c.toNat then 2 else 1)) 0

/-- JS `String.prototype.toLowerCase`, restricted to ASCII (the only case
conversions exercised by the regular expressions in the source). -/
def jsToLower (cs : List Char) : List Char := cs.map Char.toLower

/-- Does the list start with the given prefix of characters? -/
def listStartsWith : List Char → List Char → Bool
  | [], _ => true
  | _ :: _, [] => false
  | p :: ps, c :: cs => p = c && listStartsWith ps cs

/-- JS `String.prototype.includes` (substring containment). -/
def containsSub (needle : List Char) : List Char → Bool
  | [] => needle.isEmpty
  | c :: rest => listStartsWith needle (c :: rest) || containsSub needle rest

/-- Worker for `jsSplitNonWord`: `cur` accumulates the current word
(reversed); `sep` is true while consuming a separator run whose preceding
field has already been emitted. -/
def splitGo : List Char → List Char → Bool → List (List Char)
  | [], cur, sep => if sep then [[]] else [cur.reverse]
  | c :: rest, cur, sep =>
    if isWordChar c then
      splitGo rest (if sep then [c] else c :: cur) false
    else
      if sep then splitGo rest [] true
      else cur.reverse :: splitGo rest [] true

/-- JS `str.split(/\W+/)`: fields between maximal runs of non-word
characters, including the empty leading/trailing fields JS produces when
the string starts or ends with a separator. -/
def jsSplitNonWord (cs : List Char) : List (List Char) := splitGo cs [] false

/-! ## `assessKeywords` (src/services: keyword-match heuristic)

```js
const assessKeywords = (resumeText, jobDescription) => {
  if (!jobDescription) return 15;
  const resumeWords = resumeText.toLowerCase().split(/\W+/);
  const jobWords = jobDescription.toLowerCase().split(/\W+/);
  const importantJobWords = jobWords.filter(word =>
    word.length > 4 &&
    !['with','from','this','that','will','have','been','were','from'].includes(word) &&
    (word.includes('ing') || word.includes('er') || word.includes('ly') || word.length > 6));
  let matches = 0;
  importantJobWords.forEach(jobWord => { if (resumeWords.includes(jobWord)) matches++; });
  const matchPercentage = (matches / importantJobWords.length) * 25;
  return Math.min(Math.round(matchPercentage), 25);
};
```
When `importantJobWords` is empty the division yields `NaN`, which survives
`Math.round` and `Math.min`; `none` models that outcome. -/

def keywordStopWords : List (List Char) :=
  [str "with", str "from", str "this", str "that", str "will",
   str "have", str "been", str "were", str "from"]

/-- The job-description word filter of `assessKeywords`. -/
def importantJobWords (jobWords : List (List Char)) : List (List Char) :=
  jobWords.filter (fun word =>
    jsLength word > 4 &&
    !(keywordStopWords.contains word) &&
    (containsSub (str "ing") word || containsSub (str "er") word ||
     containsSub (str "ly") word || jsLength word > 6))

/-- `Math.round((m / n) * 25)` for naturals with `n ≠ 0`.  JS rounds half
away from zero toward `+∞`; for the rationals `25·m/n` arising here the
double-precision evaluation agrees with exact rounding, giving
`⌊(50·m + n) / (2·n)⌋`. -/
def jsRoundFrac25 (m n : Nat) : Nat := (50 * m + n) / (2 * n)

/-- `assessKeywords`; `none` is the `NaN` produced when the job description
is non-empty but no word passes the importance filter. -/
def assessKeywords (resumeText jobDescription : List Char) : Option Nat :=
  if jobDescription = [] then some 15
  else
    let resumeWords := jsSplitNonWord (jsToLower resumeText)
    let jobWords := jsSplitNonWord (jsToLower jobDescription)
    let important := importantJobWords jobWords
    let matchCount := (important.filter (fun w => resumeWords.contains w)).length
    if important.length = 0 then none
    else some (min (jsRoundFrac25 matchCount important.length) 25)

/-! ## Word-boundary regex tests

Every `.test` in the scorer is of the form `/\b(alt1|alt2|...)\b/i` where
each alternative is a fixed-length sequence of word characters, possibly
with a `\d` class (`20\d{2}`) or a `.` wildcard (`problem.solving`).  A
tiny fixed-length pattern language suffices. -/

/-- One fixed-width token of a pattern: a literal character (stored in
lower case, tested case-insensitively), a `\d` class, or the `.`
wildcard. -/
inductive PTok
  | lit (c : Char)
  | digitTok
  | anyTok
deriving DecidableEq

/-- Match a fixed-length pattern at the head of the text, returning the
remaining characters on success.  Literals compare against the lowercased
character (`/i` flag). -/
def matchPTokens : List PTok → List Char → Option (List Char)
  | [], rest => some rest
  | _ :: _, [] => none
  | .lit p :: ps, c :: rest =>
    if c.toLower = p then matchPTokens ps rest else none
  | .digitTok :: ps, c :: rest =>
    if isDigitChar c then matchPTokens ps rest else none
  | .anyTok :: ps, c :: rest =>
    if isDotChar c then matchPTokens ps rest else none

/-- Does some alternative match at the head of `cs` with a word boundary
after it?  (All alternatives used in the source end in a word character,
so the trailing `\b` holds iff the next character is absent or non-word.) -/
def patsMatchHere (pats : List (List PTok)) (cs : List Char) : Bool :=
  pats.any (fun p =>
    match matchPTokens p cs with
    | some [] => true
    | some (d :: _) => !isWordChar d
    | none => false)

/-- Scan of `/\b(...)\b/i.test`: `prevW` records whether the previous
character was a word character (all alternatives start with a word
character, so the leading `\b` holds iff `prevW` is false). -/
def searchBoundedGo (pats : List (List PTok)) : Bool → List Char → Bool
  | _, [] => false
  | prevW, c :: rest =>
    (!prevW && patsMatchHere pats (c :: rest)) || searchBoundedGo pats (isWordChar c) rest

/-- `/\b(alt1|alt2|...)\b/i.test(text)`. -/
def searchBounded (pats : List (List PTok)) (cs : List Char) : Bool :=
  searchBoundedGo pats false cs

/-- A plain word alternative (lower-case literals). -/
def pword (s : String) : List PTok := s.data.map PTok.lit

/-! ## `assessFormatting` (0 to 25)

```js
const assessFormatting = (resumeText) => {
  let score = 0;
  score += 5; // Assume standard fonts
  const hasConsistentSpacing = !/\t/.test(resumeText) && !/ {3,}/.test(resumeText);
  if (hasConsistentSpacing) score += 5;
  const hasSections = /\b(EXPERIENCE|EDUCATION|SKILLS|SUMMARY|OBJECTIVE)\b/i.test(resumeText);
  if (hasSections) score += 5;
  const bulletCount = (resumeText.match(/•|●|■|▪|▫|◦|◦/g) || []).length;
  if (bulletCount > 0 && bulletCount < 50) score += 5;
  const lines = resumeText.split('\n').length;
  if (lines > 20 && lines < 100) score += 5;
  return Math.min(score, 25);
};
```
-/

/-- `/ {3,}/.test`: three or more consecutive spaces. -/
def hasSpaceRun3 : List Char → Bool
  | ' ' :: ' ' :: ' ' :: _ => true
  | _ :: rest => hasSpaceRun3 rest
  | [] => false

/-- Alternatives of the section-heading regex. -/
def sectionPats : List (List PTok) :=
  [pword "experience", pword "education", pword "skills", pword "summary", pword "objective"]

/-- The bullet characters of `/•|●|■|▪|▫|◦|◦/g`; each alternative is a
single character, so the global match count is the character count. -/
def isBulletChar (c : Char) : Bool :=
  c = '•' || c = '●' || c = '■' || c = '▪' || c = '▫' || c = '◦'

def assessFormatting (resumeText : List Char) : Nat :=
  let score := 5
  let hasConsistentSpacing :=
    !(resumeText.contains '\t') && !(hasSpaceRun3 resumeText)
  let score := if hasConsistentSpacing then score + 5 else score
  let score := if searchBounded sectionPats resumeText then score + 5 else score
  let bulletCount := (resumeText.filter isBulletChar).length
  let score := if bulletCount > 0 && bulletCount < 50 then score + 5 else score
  let lines := (resumeText.filter (· = '\n')).length + 1
  let score := if lines > 20 && lines < 100 then score + 5 else score
  min score 25

/-! ## `assessStructure` (0 to 20)

```js
const assessStructure = (resumeText) => {
  let score = 0;
  const hasContact = /\b(email|phone|address|linkedin|github)\b/i.test(resumeText);
  if (hasContact) score += 5;
  const sections = ['experience', 'education', 'skills'];
  sections.forEach(section => {
    if (new RegExp(`\\b${section}\\b`, 'i').test(resumeText)) score += 3;
  });
  const hasDates = /\b(20\d{2}|19\d{2}|jan|feb|mar|apr|may|jun|jul|aug|sep|oct|nov|dec)\b/i.test(resumeText);
  if (hasDates) score += 3;
  const achievementKeywords = /\b(led|managed|improved|increased|decreased|achieved|delivered|created|built|developed)\b/i;
  if (achievementKeywords.test(resumeText)) score += 3;
  return Math.min(score, 20);
};
```
-/

def contactPats : List (List PTok) :=
  [pword "email", pword "phone", pword "address", pword "linkedin", pword "github"]

def datePats : List (List PTok) :=
  [[PTok.lit '2', PTok.lit '0', PTok.digitTok, PTok.digitTok],
   [PTok.lit '1', PTok.lit '9', PTok.digitTok, PTok.digitTok],
   pword "jan", pword "feb", pword "mar", pword "apr", pword "may", pword "jun",
   pword "jul", pword "aug", pword "sep", pword "oct", pword "nov", pword "dec"]

def achievementPats : List (List PTok) :=
  [pword "led", pword "managed", pword "improved", pword "increased", pword "decreased",
   pword "achieved", pword "delivered", pword "created", pword "built", pword "developed"]

def assessStructure (resumeText : List Char) : Nat :=
  let score := 0
  let score := if searchBounded contactPats resumeText then score + 5 else score
  let score := if searchBounded [pword "experience"] resumeText then score + 3 else score
  let score := if searchBounded [pword "education"] resumeText then score + 3 else score
  let score := if searchBounded [pword "skills"] resumeText then score + 3 else score
  let score := if searchBounded datePats resumeText then score + 3 else score
  let score := if searchBounded achievementPats resumeText then score + 3 else score
  min score 20

/-! ## `assessContent` (0 to 15)

```js
const assessContent = (resumeText) => {
  let score = 0;
  const quantifiableRegex = /\b(\d+%|\d+\s*(percent|million|billion|thousand|users?|customers?|dollars?|hours?|projects?))\b/i;
  if (quantifiableRegex.test(resumeText)) score += 5;
  const actionVerbs = /\b(achieved|improved|increased|decreased|delivered|created|built|developed|led|managed|designed|implemented|optimized)\b/i;
  const actionVerbCount = (resumeText.match(actionVerbs) || []).length;
  if (actionVerbCount > 5) score += 4;
  const hasTechnicalTerms = /\b(agile|scrum|api|database|analytics|strategy|optimization|framework|platform)\b/i.test(resumeText);
  if (hasTechnicalTerms) score += 3;
  const softSkills = /\b(communication|leadership|teamwork|problem.solving|analytical|creative|adaptable)\b/i;
  if (softSkills.test(resumeText)) score += 3;
  return Math.min(score, 15);
};
```
The action-verb regex has no `g` flag, so `match` returns the first match
array `[full, group]` of length 2 (or none): `actionVerbCount` is 2 or 0
and the `> 5` branch can never fire. -/

/-- Unit words of the quantifiable-achievement regex; `users?` and friends
expand into both the singular and the plural alternative. -/
def quantUnitWords : List (List Char) :=
  [str "percent", str "million", str "billion", str "thousand",
   str "users", str "user", str "customers", str "customer",
   str "dollars", str "dollar", str "hours", str "hour",
   str "projects", str "project"]

/-- Word match at the head of lowercased text with trailing `\b`. -/
def wordMatchHere (w : List Char) (cs : List Char) : Bool :=
  listStartsWith w cs &&
    (match cs.drop w.length with
     | [] => true
     | d :: _ => !isWordChar d)

/-- One position of `/\b(\d+%|\d+\s*(...))\b/i` on lowercased text, with the
leading boundary already checked by the caller.  Since a digit run can only
be followed by `%` or whitespace-then-letters in a successful match, the
backtracking search reduces to taking the maximal digit and whitespace
runs. -/
def quantMatchHere (cs : List Char) : Bool :=
  let digits := cs.takeWhile isDigitChar
  if digits.isEmpty then false
  else
    let rest := cs.drop digits.length
    (match rest with
     | '%' :: d :: _ => isWordChar d
     | _ => false) ||
    (let rest2 := rest.drop (rest.takeWhile isJsSpace).length
     quantUnitWords.any (fun w => wordMatchHere w rest2))

def quantScanGo : Bool → List Char → Bool
  | _, [] => false
  | prevW, c :: rest =>
    (!prevW && quantMatchHere (c :: rest)) || quantScanGo (isWordChar c) rest

/-- `quantifiableRegex.test(resumeText)`. -/
def testQuantifiable (resumeText : List Char) : Bool :=
  quantScanGo false (jsToLower resumeText)

def actionVerbPats : List (List PTok) :=
  [pword "achieved", pword "improved", pword "increased", pword "decreased",
   pword "delivered", pword "created", pword "built", pword "developed",
   pword "led", pword "managed", pword "designed", pword "implemented", pword "optimized"]

def technicalTermPats : List (List PTok) :=
  [pword "agile", pword "scrum", pword "api", pword "database", pword "analytics",
   pword "strategy", pword "optimization", pword "framework", pword "platform"]

/-- `problem.solving` contains the `.` wildcard. -/
def softSkillPats : List (List PTok) :=
  [pword "communication", pword "leadership", pword "teamwork",
   pword "problem" ++ [PTok.anyTok] ++ pword "solving",
   pword "analytical", pword "creative", pword "adaptable"]

def assessContent (resumeText : List Char) : Nat :=
  let score := 0
  let score := if testQuantifiable resumeText then score + 5 else score
  let actionVerbCount := if searchBounded actionVerbPats resumeText then 2 else 0
  let score := if actionVerbCount > 5 then score + 4 else score
  let score := if searchBounded technicalTermPats resumeText then score + 3 else score
  let score := if searchBounded softSkillPats resumeText then score + 3 else score
  min score 15

/-! ## `assessSkillsSection` (0 to 15)

```js
const assessSkillsSection = (resumeText) => {
  let score = 0;
  const skillsMatch = resumeText.match(/skills?\s*:?\s*(.+?)(?:\n\n|\n\s*\n|$)/i);
  if (skillsMatch) {
    const skillsText = skillsMatch[1];
    const skillCount = skillsText.split(/[,;]/).length;
    if (skillCount >= 5 && skillCount <= 20) score += 5;
    if (skillsText.length > 50) score += 5;
    const technicalSkills = /\b(javascript|python|java|react|node|aws|docker|sql|mongodb|git)\b/i;
    const softSkills = /\b(communication|leadership|teamwork|problem.solving|analytical)\b/i;
    if (technicalSkills.test(skillsText)) score += 3;
    if (softSkills.test(skillsText)) score += 2;
  }
  return Math.min(score, 15);
};
```
The matcher below reproduces the JS backtracking order: leftmost start
position; `skills` preferred over `skill`; both `\s*` runs greedy; `:?`
greedy; `(.+?)` lazy; tail alternation `\n\n`, then `\n\s*\n`, then `$`. -/

/-- Case-insensitive literal match returning the rest of the text. -/
def matchCI : List Char → List Char → Option (List Char)
  | [], cs => some cs
  | _ :: _, [] => none
  | p :: ps, c :: cs => if c.toLower = p then matchCI ps cs else none

/-- Length of the maximal `\s*` run at the head. -/
def wsRunLen (cs : List Char) : Nat := (cs.takeWhile isJsSpace).length

/-- `(?:\n\n|\n\s*\n|$)` as a position test (it captures nothing, so only
satisfiability at the position matters). -/
def skillsTailTest : List Char → Bool
  | [] => true
  | '\n' :: rest => skillsWsThenNL rest
  | _ => false
where
  /-- `\s*\n` as a head test (`\n\n` is the instance with an empty run). -/
  skillsWsThenNL : List Char → Bool
    | [] => false
    | c :: rest => if c = '\n' then true else if isJsSpace c then skillsWsThenNL rest else false

/-- `(.+?)` followed by the tail: the shortest non-empty run of `.`
characters after which the tail matches. -/
def lazyCapture : List Char → Option (List Char)
  | [] => none
  | c :: rest =>
    if isDotChar c then
      if skillsTailTest rest then some [c]
      else match lazyCapture rest with
        | some cap => some (c :: cap)
        | none => none
    else none

/-- `\s*` (second run) then the capture, greediest run first. -/
def skillsAfterColon (cs : List Char) : Option (List Char) :=
  ((List.range (wsRunLen cs + 1)).reverse).findSome? (fun k2 => lazyCapture (cs.drop k2))

/-- `\s*:?\s*(.+?)(?:...)` after the `skills?` literal: first `\s*` run
greediest first, `:?` preferring to consume a colon. -/
def skillsAfterWord (cs : List Char) : Option (List Char) :=
  ((List.range (wsRunLen cs + 1)).reverse).findSome? (fun k1 =>
    let cs1 := cs.drop k1
    (match cs1 with
     | ':' :: rest => skillsAfterColon rest
     | _ => none) <|> skillsAfterColon cs1)

/-- The whole pattern anchored at the current position, `skills` before
`skill`. -/
def skillsMatchAt (cs : List Char) : Option (List Char) :=
  (do skillsAfterWord (← matchCI (str "skills") cs)) <|>
  (do skillsAfterWord (← matchCI (str "skill") cs))

/-- `resumeText.match(/skills?\s*:?\s*(.+?)(?:\n\n|\n\s*\n|$)/i)`: the
captured group of the leftmost match. -/
def skillsMatchSearch : List Char → Option (List Char)
  | [] => none
  | c :: rest => skillsMatchAt (c :: rest) <|> skillsMatchSearch rest

def skillsTechnicalPats : List (List PTok) :=
  [pword "javascript", pword "python", pword "java", pword "react", pword "node",
   pword "aws", pword "docker", pword "sql", pword "mongodb", pword "git"]

def skillsSoftPats : List (List PTok) :=
  [pword "communication", pword "leadership", pword "teamwork",
   pword "problem" ++ [PTok.anyTok] ++ pword "solving", pword "analytical"]

def assessSkillsSection (resumeText : List Char) : Nat :=
  let score := 0
  let score :=
    match skillsMatchSearch resumeText with
    | none => score
    | some skillsText =>
      let skillCount := (skillsText.filter (fun c => c = ',' || c = ';')).length + 1
      let score := if skillCount ≥ 5 && skillCount ≤ 20 then score + 5 else score
      let score := if jsLength skillsText > 50 then score + 5 else score
      let score := if searchBounded skillsTechnicalPats skillsText then score + 3 else score
      let score := if searchBounded skillsSoftPats skillsText then score + 2 else score
      score
  min score 15

/-! ## `calculateATSScore`

Sums the five component heuristics into a 100-point score with grade,
per-category feedback and recommendations.  The keyword component can be
`NaN` (`none`); since JS propagates `NaN` through `+` and every `<`/`>=`
comparison against `NaN` is false, the total, the percentage and the
keyword-dependent branches are modelled on `Option Nat` accordingly.
`lastUpdated` is `new Date().toISOString()`, passed in as `now`. -/

def getGradeFromScore : Option Nat → String
  | none => "F"
  | some score =>
    if score ≥ 90 then "A"
    else if score ≥ 80 then "B"
    else if score ≥ 70 then "C"
    else if score ≥ 60 then "D"
    else "F"

def getFormattingFeedback (score : Nat) : String :=
  if score ≥ 20 then "Excellent formatting for ATS compatibility"
  else if score ≥ 15 then "Good formatting with minor improvements needed"
  else if score ≥ 10 then "Moderate formatting issues that may affect ATS parsing"
  else "Significant formatting problems that will likely cause ATS issues"

/-- On `NaN` every `>=` test is false, so the last branch is taken. -/
def getKeywordFeedback : Option Nat → String
  | none => "Poor keyword matching - resume may not pass ATS keyword filters"
  | some score =>
    if score ≥ 20 then "Excellent keyword optimization and job matching"
    else if score ≥ 15 then "Good keyword usage with room for improvement"
    else if score ≥ 10 then "Limited keyword optimization - consider adding more relevant terms"
    else "Poor keyword matching - resume may not pass ATS keyword filters"

def getStructureFeedback (score : Nat) : String :=
  if score ≥ 15 then "Well-structured resume with clear sections"
  else if score ≥ 10 then "Generally well-structured with some organizational issues"
  else if score ≥ 5 then "Structure needs improvement for better ATS compatibility"
  else "Poor structure that may confuse ATS systems"

def getContentFeedback (score : Nat) : String :=
  if score ≥ 12 then "Strong, quantifiable content that demonstrates value"
  else if score ≥ 8 then "Good content with some quantifiable achievements"
  else if score ≥ 4 then "Content could benefit from more specific examples"
  else "Content lacks specificity and quantifiable achievements"

def getSkillsFeedback (score : Nat) : String :=
  if score ≥ 12 then "Excellent skills presentation with good balance"
  else if score ≥ 8 then "Good skills section with minor improvements needed"
  else if score ≥ 4 then "Skills section needs better organization and specificity"
  else "Skills section is inadequate or missing important skills"

/-- `NaN < 20` is false in JS, so a `NaN` keyword score produces no keyword
recommendation. -/
def keywordScoreBelow (k : Option Nat) (bound : Nat) : Bool :=
  match k with
  | none => false
  | some v => v < bound

def generateATSRecommendations (formatting : Nat) (keywords : Option Nat)
    (structural content skills : Nat) : List String :=
  (if formatting < 20 then ["Use standard fonts (Arial, Calibri) and consistent formatting"] else []) ++
  (if keywordScoreBelow keywords 20 then ["Incorporate more keywords from the job description"] else []) ++
  (if structural < 15 then ["Ensure clear section headings and chronological order"] else []) ++
  (if content < 12 then ["Add quantifiable achievements and use action verbs"] else []) ++
  (if skills < 12 then ["Expand and better organize the skills section"] else [])

/-- The object returned by `calculateATSScore`; the nested `details` object
is flattened into per-category score/feedback fields, each with its
`maxScore`. -/
structure ATSResult where
  overallScore : Option Nat
  score : Option Nat
  maxScore : Nat
  grade : String
  formattingScore : Nat
  formattingFeedback : String
  keywordsScore : Option Nat
  keywordsFeedback : String
  structureScore : Nat
  structureFeedback : String
  contentScore : Nat
  contentFeedback : String
  skillsScore : Nat
  skillsFeedback : String
  recommendations : List String
  lastUpdated : String
deriving DecidableEq

def calculateATSScore (resumeText jobDescription : List Char) (now : String) : ATSResult :=
  let formattingScore := assessFormatting resumeText
  let keywordScore := assessKeywords resumeText jobDescription
  let structureScore := assessStructure resumeText
  let contentScore := assessContent resumeText
  let skillsScore := assessSkillsSection resumeText
  -- score = formatting + keywords + structure + content + skills (NaN-absorbing)
  let score := keywordScore.map (fun k =>
    formattingScore + k + structureScore + contentScore + skillsScore)
  -- percentage = Math.round((score / 100) * 100); exact for integers 0..100,
  -- NaN for NaN
  let percentage := score
  { overallScore := percentage
    score := score
    maxScore := 100
    grade := getGradeFromScore percentage
    formattingScore := formattingScore
    formattingFeedback := getFormattingFeedback formattingScore
    keywordsScore := keywordScore
    keywordsFeedback := getKeywordFeedback keywordScore
    structureScore := structureScore
    structureFeedback := getStructureFeedback structureScore
    contentScore := contentScore
    contentFeedback := getContentFeedback contentScore
    skillsScore := skillsScore
    skillsFeedback := getSkillsFeedback skillsScore
    recommendations := generateATSRecommendations formattingScore keywordScore
      structureScore contentScore skillsScore
    lastUpdated := now }

/-! ## Users, subscriptions, and the usage gate

`UserSupabase`/`UserLocal` share the subscription logic verbatim
(`canMakeRequest`, `incrementUsage`).  Dates enter only through
`getMonth()`/`getFullYear()`, so a date is modelled by those two fields.
Timestamps such as `updated_at` are outside the model. -/

structure JsDate where
  year : Int
  month : Nat
deriving DecidableEq

structure Subscription where
  plan : String
  usageCount : Nat
  monthlyLimit : Nat
  resetDate : JsDate
deriving DecidableEq

structure AuthUser where
  id : Nat
  is_active : Bool
  subscription : Option Subscription
deriving DecidableEq

/-- `canMakeRequest` (identical in both user models):

```js
canMakeRequest() {
  if (!this.subscription) return true;
  const now = new Date();
  const resetDate = new Date(this.subscription.resetDate);
  if (now.getMonth() !== resetDate.getMonth() || now.getFullYear() !== resetDate.getFullYear()) {
    this.subscription.usageCount = 0;
    this.subscription.resetDate = now.toISOString();
    this.save().catch(console.error);
  }
  return this.subscription.usageCount < this.subscription.monthlyLimit;
}
```
Returns the boolean together with the (possibly reset and saved) user. -/
def canMakeRequest (u : AuthUser) (now : JsDate) : Bool × AuthUser :=
  match u.subscription with
  | none => (true, u)
  | some sub =>
    if now.month ≠ sub.resetDate.month ∨ now.year ≠ sub.resetDate.year then
      let sub' := { sub with usageCount := 0, resetDate := now }
      (sub'.usageCount < sub'.monthlyLimit, { u with subscription := some sub' })
    else
      (sub.usageCount < sub.monthlyLimit, u)

/-- Outcome of a middleware: pass the (possibly updated) request user on,
or short-circuit with a status and error body. -/
inductive MWResult
  | next (user : Option AuthUser)
  | rejected (status : Nat) (error : String)
deriving DecidableEq

/-- `checkUsageLimit` middleware: no user passes through; otherwise the
request is rejected with 429 exactly when `canMakeRequest()` is false. -/
def checkUsageLimit (user : Option AuthUser) (now : JsDate) : MWResult :=
  match user with
  | none => .next none
  | some u =>
    let result := canMakeRequest u now
    if result.1 then .next (some result.2)
    else .rejected 429 "Usage limit exceeded. Please upgrade your plan or try again next month."

/-- `incrementUsage` (instance method): installs the default free
subscription if absent, then bumps the counter and saves. -/
def incrementUsage (u : AuthUser) (now : JsDate) : AuthUser :=
  let sub : Subscription :=
    match u.subscription with
    | none => { plan := "free", usageCount := 0, monthlyLimit := 10, resetDate := now }
    | some s => s
  { u with subscription := some { sub with usageCount := sub.usageCount + 1 } }

/-- The `incrementUsage` middleware wraps `res.send`: when the response is
finally sent, the counter is bumped iff `200 <= statusCode < 300` and a
user is attached to the request. -/
def incrementUsageOnSend (statusCode : Nat) (user : Option AuthUser) (now : JsDate) :
    Option AuthUser :=
  match user with
  | none => none
  | some u =>
    if 200 ≤ statusCode ∧ statusCode < 300 then some (incrementUsage u now) else some u

/-! ## JWT issuance and the `protect` middleware

`jsonwebtoken` is an external library; it is modelled symbolically: a
well-formed token carries its payload user id, the secret it was signed
with, and its expiry instant, and verification succeeds exactly for an
unexpired token signed with the verifier's secret.  `Jwt.malformed` stands
for any string that is not a structurally valid signed token. -/

inductive Jwt
  | malformed
  | signed (userId : Nat) (secret : String) (expiresAt : Nat)
deriving DecidableEq

/-- `jwt.verify(token, secret)` at time `now`, returning the decoded
`userId` payload on success. -/
def jwtVerify (t : Jwt) (secret : String) (now : Nat) : Option Nat :=
  match t with
  | .malformed => none
  | .signed userId s expiresAt =>
    if s = secret ∧ now < expiresAt then some userId else none

/-- `generateToken`: `jwt.sign({ userId }, JWT_SECRET, { expiresIn })`. -/
def generateToken (userId : Nat) (secret : String) (expiresIn now : Nat) : Jwt :=
  .signed userId secret (now + expiresIn)

/-- `UserModel.findById` over the in-memory store. -/
def findById (store : List AuthUser) (userId : Nat) : Option AuthUser :=
  store.find? (fun u => u.id = userId)

inductive ProtectResult
  | ok (user : AuthUser)
  | unauthorized (status : Nat) (error : String)
deriving DecidableEq

/-- The `protect` middleware.  `authToken` is the bearer token extracted
from the `Authorization` header (`none` when the header is missing or not
of the `Bearer <token>` form). -/
def protect (authToken : Option Jwt) (store : List AuthUser) (secret : String)
    (now : Nat) : ProtectResult :=
  match authToken with
  | none => .unauthorized 401 "Access denied. No token provided."
  | some t =>
    match jwtVerify t secret now with
    | none => .unauthorized 401 "Token is not valid."
    | some userId =>
      match findById store userId with
      | none => .unauthorized 401 "Token is not valid. User not found."
      | some user =>
        if user.is_active then .ok user
        else .unauthorized 401 "Account has been deactivated."

/-! ## Registration (`POST /api/auth/register`)

The route runs against the in-memory `UserLocal` store (a map keyed by
email).  `bcrypt.hash` is an external library call, modelled by an abstract
`hash` function; `crypto.randomUUID` by the supplied `newId`. -/

structure UserRec where
  id : Nat
  email : String
  password_hash : String
  first_name : String
  last_name : String
  is_active : Bool
deriving DecidableEq

/-- `UserLocal.findByEmail`: lookup in the email-keyed map. -/
def findByEmail (store : List UserRec) (email : String) : Option UserRec :=
  store.find? (fun u => u.email = email)

/-- `UserLocal.users.set(email, user)`: replace the entry with this email,
or add one. -/
def storeSet (store : List UserRec) (u : UserRec) : List UserRec :=
  if store.any (fun v => v.email = u.email) then
    store.map (fun v => if v.email = u.email then u else v)
  else store ++ [u]

/-- `UserLocal.create`: hash the password, build and store the user. -/
def userCreate (store : List UserRec) (email password firstName lastName : String)
    (hash : String → String) (newId : Nat) : UserRec × List UserRec :=
  let u : UserRec :=
    { id := newId, email := email, password_hash := hash password,
      first_name := firstName, last_name := lastName, is_active := true }
  (u, storeSet store u)

structure RegisterBody where
  email : String
  password : String
  firstName : String
  lastName : String

/-- Response of the register route, restricted to the fields the claims
inspect. -/
structure RegisterResponse where
  status : Nat
  error : Option String
  token : Option Jwt
  user : Option UserRec
deriving DecidableEq

/-- `POST /api/auth/register` after rate limiting: validation errors give
400, an existing user gives 400 with no store change, otherwise the user
is created and a 201 with token and user is returned. -/
def registerHandler (validationErrors : List String) (body : RegisterBody)
    (store : List UserRec) (hash : String → String) (newId : Nat)
    (secret : String) (expiresIn now : Nat) : RegisterResponse × List UserRec :=
  if validationErrors ≠ [] then
    ({ status := 400, error := some "Validation failed", token := none, user := none }, store)
  else
    match findByEmail store body.email with
    | some _ =>
      ({ status := 400, error := some "User already exists with this email address",
         token := none, user := none }, store)
    | none =>
      let created := userCreate store body.email body.password body.firstName body.lastName hash newId
      ({ status := 201, error := none,
         token := some (generateToken created.1.id secret expiresIn now),
         user := some created.1 }, created.2)

/-! ## Content duplication (`duplicateContent` + `ContentSupabase`)

A `content` row of the hosted database is an association list from column
names (snake_case, per the repo's setup SQL) to stored values, the values
kept opaque as strings.  Loaded records are `transformRecord`s of rows, so
their keys are camelCase (`user_id` becomes `userId`).  A JS property read
on such a record yields `undefined` (modelled `none`) when the key is
absent.  `.single()` on a query matching no row makes PostgREST return
error PGRST116 (message below), which `handleSupabaseError` converts into
a thrown `Error`; an insert whose payload contains a key that is not a
column of the table likewise errors instead of inserting. -/

/-- JS `{...a, ...b}`: keys of `a` in order (values overridden by `b`
where present), then the keys of `b` not already in `a`. -/
def objMerge (a b : List (String × String)) : List (String × String) :=
  a.map (fun kv =>
    match b.find? (fun kv2 => kv2.1 = kv.1) with
    | some kv2 => kv2
    | none => kv) ++
  b.filter (fun kv2 => !(a.any (fun kv => kv.1 = kv2.1)))

/-- JS property read on an object modelled as an association list; `none`
is `undefined`. -/
def rowGet (row : List (String × String)) (key : String) : Option String :=
  (row.find? (fun kv => kv.1 = key)).map Prod.snd

/-- `key.replace(/_([a-z])/g, (_, letter) => letter.toUpperCase())`, the
key transform of `transformRecord`. -/
def camelChars : List Char → List Char
  | [] => []
  | '_' :: c :: rest =>
    if 'a' ≤ c && c ≤ 'z' then c.toUpper :: camelChars rest
    else '_' :: camelChars (c :: rest)
  | c :: rest => c :: camelChars rest

/-- `transformRecord`: snake_case column names to camelCase. -/
def transformRecord (record : List (String × String)) : List (String × String) :=
  record.map (fun kv => (String.mk (camelChars kv.1.data), kv.2))

/-- `key.replace(/[A-Z]/g, letter => _ + letter.toLowerCase())`, the key
transform of `transformForInsert`. -/
def snakeChars : List Char → List Char
  | [] => []
  | c :: rest =>
    if 'A' ≤ c && c ≤ 'Z' then '_' :: c.toLower :: snakeChars rest
    else c :: snakeChars rest

/-- `transformForInsert`: camelCase keys to snake_case column names. -/
def transformForInsert (record : List (String × String)) : List (String × String) :=
  record.map (fun kv => (String.mk (snakeChars kv.1.data), kv.2))

/-- Columns of the `content` table, from the repo's setup SQL (identical in
`supabase-setup.sql` and `supabase-production-setup.sql`); note there is no
`user` and no `is_template` column. -/
def contentTableColumns : List String :=
  ["id", "user_id", "type", "title", "content", "metadata", "tags",
   "is_public", "is_favorite", "usage", "expires_at", "last_accessed",
   "version", "parent_content", "related_content", "settings",
   "created_at", "updated_at"]

/-- The message of PostgREST error PGRST116, raised by `.single()` when the
query matches no row; `handleSupabaseError` throws `new Error(error.message)`. -/
def noSingleRowMessage : String :=
  "JSON object requested, multiple (or no) rows returned"

/-- `ContentSupabase.findById`: `.eq(id, contentId).single()`.  With no
matching row `.single()` errors and `handleSupabaseError` throws, so the
`data ? ... : null` fallback in the source is unreachable; with a row, the
camel-cased record is returned. -/
def contentFindById (db : List (List (String × String))) (contentId : String) :
    Except String (List (String × String)) :=
  match db.find? (fun row => rowGet row "id" = some contentId) with
  | none => .error noSingleRowMessage
  | some row => .ok (transformRecord row)

/-- `ContentSupabase.create(contentData)`: spreads the caller's data, then
its own `isPublic: false, isTemplate: false, isFavorite: false, usage,
expiresAt, lastAccessed, version: 1, settings` (the later spread wins),
snake-cases the keys with `transformForInsert` and inserts.  JSONB values
(`usage`, `settings`) are opaque here.  PostgREST rejects an insert whose
payload names a non-column, and `handleSupabaseError` turns that into a
throw; otherwise the stored row is returned camel-cased. -/
def contentCreate (db : List (List (String × String)))
    (contentData : List (String × String))
    (newId expiresAt lastAccessed : String) :
    Except String (List (String × String) × List (List (String × String))) :=
  let payload := transformForInsert (objMerge contentData
    [("isPublic", "false"), ("isTemplate", "false"), ("isFavorite", "false"),
     ("usage", "views:0 downloads:0 shares:0"), ("expiresAt", expiresAt),
     ("lastAccessed", lastAccessed), ("version", "1"),
     ("settings", "autoSave:true notifications:true sharing:false")])
  match payload.find? (fun kv => !(contentTableColumns.contains kv.1)) with
  | some kv => .error ("Could not find the " ++ kv.1 ++ " column of content in the schema cache")
  | none =>
    let row := ("id", newId) :: payload
    .ok (transformRecord row, db ++ [row])

/-- The object literal `duplicateContent` passes to
`ContentSupabase.create`.  Keys mirror the source:

```js
{ user: userId, type: originalContent.type,
  title: title || `${originalContent.title} (Copy)`,
  content: {...originalContent.content, ...modifications},
  metadata: {...originalContent.metadata, ...modifications.metadata},
  tags: originalContent.tags, parentContent: originalContent.id,
  version: 1, isPublic: false }
```

A property read that is `undefined` is elided from the object sent to the
database (JSON serialization drops `undefined`-valued keys), except in the
template literal for `title`, where JS coerces it to the string
"undefined".  The `modifications` spreads merge into the opaque JSONB
payload values and are not modelled field-by-field (they cannot affect the
keys, the ownership check, or the null/throw behaviour). -/
def duplicationData (originalContent : List (String × String))
    (userId : String) (title : Option String) : List (String × String) :=
  [("user", userId)] ++
  (match rowGet originalContent "type" with
   | some t => [("type", t)]
   | none => []) ++
  [("title",
    match title with
    | some t => t
    | none =>
      (match rowGet originalContent "title" with
       | some t => t
       | none => "undefined") ++ " (Copy)")] ++
  (match rowGet originalContent "content" with
   | some c => [("content", c)]
   | none => []) ++
  (match rowGet originalContent "metadata" with
   | some m => [("metadata", m)]
   | none => []) ++
  (match rowGet originalContent "tags" with
   | some t => [("tags", t)]
   | none => []) ++
  (match rowGet originalContent "id" with
   | some i => [("parentContent", i)]
   | none => []) ++
  [("version", "1"), ("isPublic", "false")]

/-- `duplicateContent(contentId, userId, {title, modifications})`:

```js
try {
  const originalContent = await ContentSupabase.findById(contentId);
  if (!originalContent) return null;
  if (originalContent.user !== userId) return null;
  const duplicatedContent = await ContentSupabase.create({...});
  return duplicatedContent;
} catch (error) {
  throw new Error(`Failed to duplicate content: ${error.message}`);
}
```

`findById` throws for a missing id (caught and rethrown with the prefix),
and a loaded record carries its owner under `userId` — the camel-casing of
the `user_id` column — never under `user`, so `originalContent.user` is
`undefined` and the ownership test compares `undefined` with the
requester's id. -/
def duplicateContent (db : List (List (String × String)))
    (contentId userId : String) (title : Option String)
    (newId expiresAt lastAccessed : String) :
    Except String (Option (List (String × String)) × List (List (String × String))) :=
  match contentFindById db contentId with
  | .error e => .error ("Failed to duplicate content: " ++ e)
  | .ok originalContent =>
    if rowGet originalContent "user" ≠ some userId then .ok (none, db)
    else
      match contentCreate db (duplicationData originalContent userId title)
          newId expiresAt lastAccessed with
      | .error e => .error ("Failed to duplicate content: " ++ e)
      | .ok created => .ok (some created.1, created.2)

/-! ## AI response parsing and the analyzer route (error handling)

`JSON.parse` is a host primitive, modelled by an abstract
`jsonParse : String → Except String JsonVal` (`.error` is the thrown
`SyntaxError` message); the parsed value itself is opaque. -/

structure JsonVal where
  raw : String
deriving DecidableEq

/-- `GeminiService.analyzeResume`: builds a prompt, obtains the model
response text (`modelResponse`), and returns `JSON.parse(response)` with no
schema validation, repair, or retry. -/
def geminiAnalyzeResume (jsonParse : String → Except String JsonVal)
    (modelResponse : String) : Except String JsonVal :=
  jsonParse modelResponse

/-- The analyzer controller `analyzeResume`: parses the AI response, then
enriches it with the local ATS score; any error is rethrown with the
`Resume analysis failed: ` prefix. -/
def controllerAnalyzeResume (jsonParse : String → Except String JsonVal)
    (modelResponse : String) (resumeText jobDescription : List Char)
    (now : String) : Except String (JsonVal × ATSResult) :=
  match geminiAnalyzeResume jsonParse modelResponse with
  | .error e => .error ("Resume analysis failed: " ++ e)
  | .ok analysis => .ok (analysis, calculateATSScore resumeText jobDescription now)

structure RouteResponse where
  status : Nat
  success : Bool
  error : Option String
deriving DecidableEq

/-- `POST /api/analyzer/analyze` (validation already passed, body text
present): every thrown error is caught and mapped to a generic 500. -/
def analyzeRoute (jsonParse : String → Except String JsonVal)
    (modelResponse : String) (resumeText jobDescription : List Char)
    (now : String) : RouteResponse :=
  match controllerAnalyzeResume jsonParse modelResponse resumeText jobDescription now with
  | .error _ => { status := 500, success := false,
                  error := some "Failed to analyze resume. Please try again." }
  | .ok _ => { status := 200, success := true, error := none }

/-! ## `transformRecord` and `toJSON` (password-hash redaction)

Database rows are association lists from column names to (opaque) stored
values.  `transformRecord` camel-cases the keys; the two `toJSON`
implementations drop fields by destructuring. -/

/-- `UserSupabase.prototype.toJSON`:
`const { password_hash, passwordResetToken, ...userData } = this`. -/
def userSupabaseToJSON (u : List (String × String)) : List (String × String) :=
  u.filter (fun kv => !(kv.1 = "password_hash" || kv.1 = "passwordResetToken"))

/-- `UserLocal.prototype.toJSON`:
`const { password_hash, password_reset_token, ...userData } = this`
then `firstName`/`lastName` aliases are appended. -/
def userLocalToJSON (u : List (String × String)) : List (String × String) :=
  u.filter (fun kv => !(kv.1 = "password_hash" || kv.1 = "password_reset_token")) ++
  [("firstName", ((u.find? (fun kv => kv.1 = "first_name")).map Prod.snd).getD ""),
   ("lastName", ((u.find? (fun kv => kv.1 = "last_name")).map Prod.snd).getD "")]

/-! ## Concrete instances used by the witness theorems -/

def exDate : JsDate := { year := 2026, month := 9 }

def exSub : Subscription :=
  { plan := "free", usageCount := 10, monthlyLimit := 10, resetDate := exDate }

def exUser : AuthUser := { id := 1, is_active := true, subscription := some exSub }

def exStore : List AuthUser := [exUser]

def exRegBody : RegisterBody :=
  { email := "a@b.com", password := "secret1", firstName := "A", lastName := "B" }

def exUserRec : UserRec :=
  { id := 7, email := "a@b.com", password_hash := "stored-hash",
    first_name := "A", last_name := "B", is_active := true }

/-- A `content` table row as stored (snake_case columns per the setup
SQL), owned by user "u1". -/
def exContentRow : List (String × String) :=
  [("id", "c3"), ("user_id", "u1"), ("type", "resume"),
   ("title", "My Resume"), ("content", "resume-json"),
   ("metadata", "meta-json"), ("tags", "job"), ("is_public", "true"),
   ("is_favorite", "false"), ("version", "2"), ("created_at", "2026-01-01")]

/-- A database row as stored in the `users` table (snake_case columns). -/
def leakyUserRow : List (String × String) :=
  [("id", "1"), ("email", "a@b.com"),
   ("password_hash", "bcrypt-hash-value"),
   ("password_reset_token", "reset-token-hash")]

/-! # Theorems -/

section SanityChecks

example : jsSplitNonWord (str "a b") = [str "a", str "b"] := by decide
example : jsSplitNonWord (str " a") = [[], str "a"] := by decide
example : jsSplitNonWord (str "a  ") = [str "a", []] := by decide
example : jsSplitNonWord [] = [[]] := by decide
example : assessKeywords (str "anything") [] = some 15 := by decide
example :
    assessKeywords (str "seasoned engineer leading teams")
      (str "engineer leading projects") = some 17 := by decide
example : skillsMatchSearch (str "Skills: Java, SQL\n\nEnd") = some (str "Java, SQL") := by decide
example : skillsMatchSearch (str "Skills:\nJava, SQL") = some (str "Java, SQL") := by decide
example : skillsMatchSearch (str "nothing here") = none := by decide

end SanityChecks

/-! ## Component bounds (supporting lemmas: each heuristic is capped by its
category weight via the final `Math.min`) -/

theorem assessFormatting_le (resumeText : List Char) : assessFormatting resumeText ≤ 25 := by
  unfold assessFormatting
  exact Nat.min_le_right _ _

theorem assessStructure_le (resumeText : List Char) : assessStructure resumeText ≤ 20 := by
  unfold assessStructure
  exact Nat.min_le_right _ _

theorem assessContent_le (resumeText : List Char) : assessContent resumeText ≤ 15 := by
  unfold assessContent
  exact Nat.min_le_right _ _

theorem assessSkillsSection_le (resumeText : List Char) :
    assessSkillsSection resumeText ≤ 15 := by
  unfold assessSkillsSection
  exact Nat.min_le_right _ _

/-- Whenever `assessKeywords` does return a number, it is at most 25. -/
theorem assessKeywords_le (resumeText jobDescription : List Char) (k : Nat)
    (h : assessKeywords resumeText jobDescription = some k) : k ≤ 25 := by
  unfold assessKeywords at h
  by_cases hj : jobDescription = []
  · simp [hj] at h
    omega
  · simp only [if_neg hj] at h
    by_cases hz : (importantJobWords (jsSplitNonWord (jsToLower jobDescription))).length = 0
    · simp [hz] at h
    · simp only [if_neg hz, Option.some.injEq] at h
      omega

/-- Whenever the keyword component is a number, the total is the sum of the
five components and is at most 100. -/
theorem calculateATSScore_sum_and_bound (resumeText jobDescription : List Char)
    (now : String) (k : Nat)
    (h : assessKeywords resumeText jobDescription = some k) :
    (calculateATSScore resumeText jobDescription now).score
      = some (assessFormatting resumeText + k + assessStructure resumeText +
              assessContent resumeText + assessSkillsSection resumeText)
    ∧ ∀ s, (calculateATSScore resumeText jobDescription now).score = some s → s ≤ 100 := by
  constructor
  · simp [calculateATSScore, h]
  · intro s hs
    simp [calculateATSScore, h] at hs
    have h1 := assessFormatting_le resumeText
    have h2 := assessKeywords_le resumeText jobDescription k h
    have h3 := assessStructure_le resumeText
    have h4 := assessContent_le resumeText
    have h5 := assessSkillsSection_le resumeText
    omega

/-- C1: the claim states that for every resume text and job description the
total returned by `calculateATSScore` is the sum of the five component
scores, each bounded by its category weight, so the total lies in 0..100.
The code violates this: a non-empty job description none of whose words
passes the importance filter (here "cat") makes `assessKeywords` divide by
zero, so the keyword component, the total and the overall score are all
`NaN` (modelled `none`) — not numbers in range — and the grade falls
through to "F". -/
theorem calculateATSScore_nan_on_keywordless_jobDescription :
    (calculateATSScore (str "Experienced software engineer") (str "cat") "2026-01-01").keywordsScore = none
    ∧ (calculateATSScore (str "Experienced software engineer") (str "cat") "2026-01-01").score = none
    ∧ (calculateATSScore (str "Experienced software engineer") (str "cat") "2026-01-01").overallScore = none
    ∧ (calculateATSScore (str "Experienced software engineer") (str "cat") "2026-01-01").grade = "F" := by
  refine ⟨rfl, rfl, rfl, rfl⟩

/-- C3: the claim states that `assessKeywords` returns a value between 0
and 25 for every non-empty job description (and 15 for an empty one).  The
code violates the first part: with job description "cat" the
important-word list is empty, `matches / importantJobWords.length` is
`0 / 0 = NaN`, and `NaN` survives `Math.round` and `Math.min`, so the
function returns `NaN` (modelled `none`) rather than a number in 0..25.
The empty-description default of 15 does hold. -/
theorem assessKeywords_nan_on_keywordless_jobDescription :
    assessKeywords (str "Experienced software engineer") (str "cat") = none
    ∧ assessKeywords (str "Experienced software engineer") [] = some 15 := by
  refine ⟨rfl, rfl⟩

/-- C4: `calculateATSScore` is a pure function of the resume text and the
job description: two invocations on identical inputs agree on the overall
score, the raw total, every per-category component score, the grade and
the recommendations, whatever the wall-clock timestamps (`lastUpdated` is
the only time-dependent field). -/
theorem calculateATSScore_deterministic (resumeText jobDescription : List Char)
    (t₁ t₂ : String) :
    (calculateATSScore resumeText jobDescription t₁).overallScore
      = (calculateATSScore resumeText jobDescription t₂).overallScore
    ∧ (calculateATSScore resumeText jobDescription t₁).score
      = (calculateATSScore resumeText jobDescription t₂).score
    ∧ (calculateATSScore resumeText jobDescription t₁).grade
      = (calculateATSScore resumeText jobDescription t₂).grade
    ∧ (calculateATSScore resumeText jobDescription t₁).formattingScore
      = (calculateATSScore resumeText jobDescription t₂).formattingScore
    ∧ (calculateATSScore resumeText jobDescription t₁).keywordsScore
      = (calculateATSScore resumeText jobDescription t₂).keywordsScore
    ∧ (calculateATSScore resumeText jobDescription t₁).structureScore
      = (calculateATSScore resumeText jobDescription t₂).structureScore
    ∧ (calculateATSScore resumeText jobDescription t₁).contentScore
      = (calculateATSScore resumeText jobDescription t₂).contentScore
    ∧ (calculateATSScore resumeText jobDescription t₁).skillsScore
      = (calculateATSScore resumeText jobDescription t₂).skillsScore
    ∧ (calculateATSScore resumeText jobDescription t₁).recommendations
      = (calculateATSScore resumeText jobDescription t₂).recommendations :=
  ⟨rfl, rfl, rfl, rfl, rfl, rfl, rfl, rfl, rfl⟩

/-- C9: the claim states that neither `toJSON` ever exposes the stored
bcrypt hash or the reset token.  The code violates it for the Supabase
model: `transformRecord` camel-cases the `password_hash` column to
`passwordHash`, but `UserSupabase.toJSON` destructures away only the keys
`password_hash` and `passwordResetToken`, so the hash survives under
`passwordHash`.  (The reset token is stripped, and `UserLocal.toJSON`,
whose keys are never camel-cased, strips both of its fields correctly.) -/
theorem userSupabase_toJSON_leaks_passwordHash :
    ("passwordHash", "bcrypt-hash-value") ∈ userSupabaseToJSON (transformRecord leakyUserRow)
    ∧ ("passwordResetToken", "reset-token-hash") ∉ userSupabaseToJSON (transformRecord leakyUserRow)
    ∧ ("password_hash", "bcrypt-hash-value") ∉ userLocalToJSON leakyUserRow
    ∧ ("password_reset_token", "reset-token-hash") ∉ userLocalToJSON leakyUserRow := by
  refine ⟨by decide, by decide, by decide, by decide⟩

/-- C2: for a user with subscription data, when the current date is in the
same calendar month and year as `resetDate`, `canMakeRequest` returns true
iff `usageCount < monthlyLimit` (leaving the user unchanged) and the
`checkUsageLimit` middleware responds 429 exactly once
`usageCount >= monthlyLimit`; when the month or year differs, the counter
is reset to 0, `resetDate` becomes the current date, and the request is
allowed provided `monthlyLimit > 0`. -/
theorem canMakeRequest_monthly_window (u : AuthUser) (sub : Subscription) (now : JsDate)
    (hsub : u.subscription = some sub) :
    ((now.month = sub.resetDate.month ∧ now.year = sub.resetDate.year) →
        ((canMakeRequest u now).1 = true ↔ sub.usageCount < sub.monthlyLimit)
        ∧ (canMakeRequest u now).2 = u
        ∧ (checkUsageLimit (some u) now =
             .rejected 429 "Usage limit exceeded. Please upgrade your plan or try again next month."
           ↔ sub.monthlyLimit ≤ sub.usageCount))
    ∧ (¬(now.month = sub.resetDate.month ∧ now.year = sub.resetDate.year) →
        ∃ sub', (canMakeRequest u now).2.subscription = some sub'
          ∧ sub'.usageCount = 0 ∧ sub'.resetDate = now
          ∧ ((canMakeRequest u now).1 = true ↔ 0 < sub.monthlyLimit)) := by
  constructor
  · intro hsame
    have hcond : ¬(now.month ≠ sub.resetDate.month ∨ now.year ≠ sub.resetDate.year) := by
      push_neg
      exact ⟨hsame.1, hsame.2⟩
    refine ⟨?_, ?_, ?_⟩
    · simp [canMakeRequest, hsub, if_neg hcond]
    · simp [canMakeRequest, hsub, if_neg hcond]
    · simp only [checkUsageLimit, canMakeRequest, hsub, if_neg hcond]
      by_cases hlt : sub.usageCount < sub.monthlyLimit
      all_goals simp [hlt]
      all_goals omega
  · intro hdiff
    have hcond : now.month ≠ sub.resetDate.month ∨ now.year ≠ sub.resetDate.year := by
      by_contra hc
      push_neg at hc
      exact hdiff ⟨hc.1, hc.2⟩
    refine ⟨{ sub with usageCount := 0, resetDate := now }, ?_, rfl, rfl, ?_⟩
    · simp [canMakeRequest, hsub, if_pos hcond]
    · simp [canMakeRequest, hsub, if_pos hcond]

/-- C2 witness: a user at the limit inside the current window is rejected
with 429. -/
theorem canMakeRequest_monthly_window_witness :
    checkUsageLimit (some exUser) exDate =
      .rejected 429 "Usage limit exceeded. Please upgrade your plan or try again next month."
    ↔ exSub.monthlyLimit ≤ exSub.usageCount :=
  ((canMakeRequest_monthly_window exUser exSub exDate rfl).1 ⟨rfl, rfl⟩).2.2

/-- C10: the `incrementUsage` middleware bumps the subscription usage
counter exactly once if and only if the final status code is 2xx and a
user is attached to the request; on a non-2xx response, or with no user,
everything is left unchanged. -/
theorem incrementUsage_on_2xx_only (statusCode : Nat) (u : AuthUser) (sub : Subscription)
    (now : JsDate) (hsub : u.subscription = some sub) :
    (incrementUsageOnSend statusCode (some u) now
       = some { u with subscription := some { sub with usageCount := sub.usageCount + 1 } }
     ↔ (200 ≤ statusCode ∧ statusCode < 300))
    ∧ (¬(200 ≤ statusCode ∧ statusCode < 300) →
        incrementUsageOnSend statusCode (some u) now = some u)
    ∧ incrementUsageOnSend statusCode none now = none := by
  refine ⟨⟨?_, ?_⟩, ?_, rfl⟩
  · intro h
    by_contra h2xx
    simp only [incrementUsageOnSend, if_neg h2xx, Option.some.injEq] at h
    have hs := congrArg AuthUser.subscription h
    rw [hsub] at hs
    simp only [Option.some.injEq] at hs
    have hc := congrArg Subscription.usageCount hs
    simp at hc
  · intro h2xx
    simp [incrementUsageOnSend, if_pos h2xx, incrementUsage, hsub]
  · intro h2xx
    simp [incrementUsageOnSend, if_neg h2xx]

/-- C10 witness: a 200 response with the example user attached increments
the counter by one. -/
theorem incrementUsage_on_2xx_only_witness :
    incrementUsageOnSend 200 (some exUser) exDate
      = some { exUser with subscription := some { exSub with usageCount := exSub.usageCount + 1 } } :=
  (incrementUsage_on_2xx_only 200 exUser exSub exDate rfl).1.mpr (by omega)

/-- C6: a token issued by `generateToken(userId)` verifies under the same
secret before its expiry and decodes back to `userId`, so `protect`
accepts it and attaches the user whenever the user exists and is active;
conversely a token failing verification (malformed, wrong secret or
expired), or one whose user is missing or inactive, is rejected with
status 401. -/
theorem generateToken_protect_roundtrip (secret : String) (store : List AuthUser) (now : Nat) :
    (∀ userId expiresIn issuedAt,
       now < issuedAt + expiresIn →
       jwtVerify (generateToken userId secret expiresIn issuedAt) secret now = some userId
       ∧ (∀ u, findById store userId = some u → u.is_active = true →
           protect (some (generateToken userId secret expiresIn issuedAt)) store secret now
             = .ok u))
    ∧ (∀ t, jwtVerify t secret now = none →
        protect (some t) store secret now = .unauthorized 401 "Token is not valid.")
    ∧ (∀ t userId, jwtVerify t secret now = some userId → findById store userId = none →
        protect (some t) store secret now
          = .unauthorized 401 "Token is not valid. User not found.")
    ∧ (∀ t userId u, jwtVerify t secret now = some userId → findById store userId = some u →
        u.is_active = false →
        protect (some t) store secret now = .unauthorized 401 "Account has been deactivated.") := by
  refine ⟨?_, ?_, ?_, ?_⟩
  · intro userId expiresIn issuedAt hexp
    have hv : jwtVerify (generateToken userId secret expiresIn issuedAt) secret now
        = some userId := by
      simp [jwtVerify, generateToken, hexp]
    refine ⟨hv, ?_⟩
    intro u hfind hactive
    simp [protect, hv, hfind, hactive]
  · intro t hv
    simp [protect, hv]
  · intro t userId hv hfind
    simp [protect, hv, hfind]
  · intro t userId u hv hfind hactive
    simp [protect, hv, hfind, hactive]

/-- C6 witness: a freshly issued token for the example user is accepted
before expiry. -/
theorem generateToken_protect_roundtrip_witness :
    protect (some (generateToken 1 "s3cret" 3600 1000)) exStore "s3cret" 2000 = .ok exUser :=
  ((generateToken_protect_roundtrip "s3cret" exStore 2000).1 1 3600 1000 (by omega)).2
    exUser rfl rfl

/-- A `Map.set` on an email that is absent appends the new user. -/
theorem storeSet_append (store : List UserRec) (u : UserRec)
    (h : findByEmail store u.email = none) : storeSet store u = store ++ [u] := by
  unfold findByEmail at h
  have hany : store.any (fun v => v.email = u.email) = false := by
    rw [List.any_eq_false]
    intro x hx
    have := List.find?_eq_none.mp h x hx
    simpa using this
  unfold storeSet
  rw [hany]
  simp

/-- C5: a registration request that passes validation is rejected with a
400 "already exists" body and no store change when the email is taken, and
otherwise creates exactly one user with that email and responds 201 with a
token and the user object. -/
theorem registerHandler_email_uniqueness (body : RegisterBody) (store : List UserRec)
    (hash : String → String) (newId : Nat) (secret : String) (expiresIn now : Nat) :
    ((∃ u, findByEmail store body.email = some u) →
       registerHandler [] body store hash newId secret expiresIn now
         = ({ status := 400, error := some "User already exists with this email address",
              token := none, user := none }, store))
    ∧ (findByEmail store body.email = none →
       ∃ u, registerHandler [] body store hash newId secret expiresIn now
           = ({ status := 201, error := none,
                token := some (generateToken newId secret expiresIn now),
                user := some u }, store ++ [u])
         ∧ u.email = body.email ∧ u.id = newId) := by
  constructor
  · rintro ⟨u, hu⟩
    simp [registerHandler, hu]
  · intro hnone
    refine ⟨{ id := newId, email := body.email, password_hash := hash body.password,
              first_name := body.firstName, last_name := body.lastName,
              is_active := true }, ?_, rfl, rfl⟩
    have hset := storeSet_append store
      { id := newId, email := body.email, password_hash := hash body.password,
        first_name := body.firstName, last_name := body.lastName, is_active := true } hnone
    simp [registerHandler, hnone, userCreate, hset]

/-- C5 witness: registering the example email a second time yields the 400
response and leaves the store unchanged. -/
theorem registerHandler_email_uniqueness_witness :
    registerHandler [] exRegBody [exUserRec] (fun s => s) 8 "sec" 10 0
      = ({ status := 400, error := some "User already exists with this email address",
           token := none, user := none }, [exUserRec]) :=
  (registerHandler_email_uniqueness exRegBody [exUserRec] (fun s => s) 8 "sec" 10 0).1
    ⟨exUserRec, rfl⟩

/-- C7: the claim states that duplication of an existing item owned by the
requester creates the version-1 private copy with a `parentContent` link,
and that a missing or foreign item yields null.  The code violates both
halves.  A loaded record carries its owner under `userId` (the
camel-casing of the `user_id` column), so the ownership check reads the
absent `user` property and returns null for every requester — including
the owner "u1" — and no record is ever created.  A missing id makes
`.single()` error (PGRST116) and the error is rethrown with the
`Failed to duplicate content:` prefix instead of null being returned.
The create call, were it ever reached, would itself throw: its insert
payload's `user` and `is_template` keys name no column of the `content`
table. -/
theorem duplicateContent_never_duplicates :
    (∀ (userId : String) (title : Option String),
       duplicateContent [exContentRow] "c3" userId title "c9" "e" "l"
         = .ok (none, [exContentRow]))
    ∧ duplicateContent [exContentRow] "missing" "u1" none "c9" "e" "l"
        = .error ("Failed to duplicate content: " ++ noSingleRowMessage)
    ∧ rowGet (transformRecord exContentRow) "userId" = some "u1"
    ∧ rowGet (transformRecord exContentRow) "user" = none
    ∧ contentCreate [exContentRow]
        (duplicationData (transformRecord exContentRow) "u1" none) "c9" "e" "l"
        = .error "Could not find the user column of content in the schema cache" := by
  refine ⟨?_, rfl, rfl, rfl, rfl⟩
  intro userId title
  have hfind : contentFindById [exContentRow] "c3" = .ok (transformRecord exContentRow) := rfl
  have huser : rowGet (transformRecord exContentRow) "user" = none := rfl
  simp [duplicateContent, hfind, huser]

/-- C8: a model response that is not valid JSON makes
`GeminiService.analyzeResume` propagate the parse error unchanged (no
repair or retry), the analyzer controller rethrows it with its prefix, and
the route handler maps any such error to a generic 500 body that does not
mention the parse error. -/
theorem analyzeRoute_parse_error_500 (jsonParse : String → Except String JsonVal)
    (modelResponse : String) (e : String) (resumeText jobDescription : List Char)
    (now : String) (h : jsonParse modelResponse = .error e) :
    geminiAnalyzeResume jsonParse modelResponse = .error e
    ∧ controllerAnalyzeResume jsonParse modelResponse resumeText jobDescription now
        = .error ("Resume analysis failed: " ++ e)
    ∧ analyzeRoute jsonParse modelResponse resumeText jobDescription now
        = { status := 500, success := false,
            error := some "Failed to analyze resume. Please try again." } := by
  refine ⟨h, ?_, ?_⟩
  · simp [controllerAnalyzeResume, geminiAnalyzeResume, h]
  · simp [analyzeRoute, controllerAnalyzeResume, geminiAnalyzeResume, h]

/-- C8 witness: a parser that rejects the response text produces the
generic 500. -/
theorem analyzeRoute_parse_error_500_witness :
    analyzeRoute (fun _ => .error "Unexpected token") "not json" (str "resume") (str "job") "t"
      = { status := 500, success := false,
          error := some "Failed to analyze resume. Please try again." } :=
  (analyzeRoute_parse_error_500 (fun _ => .error "Unexpected token") "not json"
    "Unexpected token" (str "resume") (str "job") "t" rfl).2.2

end VGen
